import Mathlib

/-!
Verification development for the `AccountManager` module of the repository:
a typed client wrapper around a private web API, exposing account-management
operations (profile info, notification/privacy settings, watch-time stats,
basic analytics) as promise-returning methods, together with the generic
node-search utility `findNode` used to locate fields in loosely structured
response payloads.

The untyped response trees are embedded as an inductive JSON-like value type
`JsVal`; each method of `AccountManager` is embedded as a function from an
injected request dispatcher (a function from requests to response payloads)
to the ordered list of requests it dispatches together with its result;
fallible paths return `Except String`.
-/

/-- Untyped JavaScript-style value, as found in response payloads. -/
inductive JsVal where
  | undef : JsVal
  | nullV : JsVal
  | boolV : Bool → JsVal
  | numV : Int → JsVal
  | strV : String → JsVal
  | arrV : List JsVal → JsVal
  | objV : List (String × JsVal) → JsVal
deriving Repr

namespace JsVal

/-- Property read `v[k]`: field lookup on objects, `undefined` otherwise
(property access on non-objects is modelled as yielding `undefined`). -/
def get : JsVal → String → JsVal
  | objV fs, k => (fs.find? (fun p => p.1 == k)).elim undef (fun p => p.2)
  | _, _ => undef

/-- Index read `v[i]` on arrays; `undefined` otherwise. -/
def idx : JsVal → Nat → JsVal
  | arrV xs, i => (xs.get? i).elim undef id
  | _, _ => undef

/-- JavaScript truthiness. -/
def truthy : JsVal → Bool
  | undef => false
  | nullV => false
  | boolV b => b
  | numV n => n != 0
  | strV s => s != ""
  | arrV _ => true
  | objV _ => true

/-- Does an object value have `k` as one of its own direct keys? -/
def hasOwn : JsVal → String → Bool
  | objV fs, k => fs.any (fun p => p.1 == k)
  | _, _ => false

/-- The immediate children of a node: field values of an object, elements
of an array, nothing otherwise. -/
def children : JsVal → List JsVal
  | objV fs => fs.map (fun p => p.2)
  | arrV xs => xs
  | _ => []

/-- String coercion of a value, as used when a value is interpolated into a
string context or used as a property key. -/
def toStr : JsVal → String
  | undef => "undefined"
  | nullV => "null"
  | boolV true => "true"
  | boolV false => "false"
  | numV n => toString n
  | strV s => s
  | arrV _ => ""
  | objV _ => "[object Object]"

end JsVal

/-- The target key name is found at a node if the node is an object carrying
the key directly, or an array one of whose elements carries it directly. -/
def keyFoundAt (node : JsVal) (target : String) : Bool :=
  node.hasOwn target ||
    (match node with
      | JsVal.arrV xs => xs.any (fun x => x.hasOwn target)
      | _ => false)

/-- Modelled from the spec: the recursive core of the node search `findNode`
(the source file `utils/Utils` is not part of the provided sources).
Per the spec it is a "recursive key-name lookup through a nested, untyped
response tree with a depth bound": it recurses through the tree by key name
and returns the subtree at which the target key is found, stopping the
search when the depth limit is exceeded.  Each unit of the depth budget pays
for one level of descent (a depth-first search, first hit wins); an
exhausted budget means failure. -/
def findNodeAux (target : String) : Nat → JsVal → Option JsVal
  | 0, _ => none
  | Nat.succ f, node =>
      if keyFoundAt node target then some node
      else node.children.foldr
        (fun c acc => (findNodeAux target f c).elim acc some) none

/-- Modelled from the spec: `findNode` (imported from `utils/Utils`, not part
of the provided sources).  "Recurses through response payloads by key name
until a target key is found or a depth limit is exceeded"; the search starts
at `data[key]`; the failure flag `safe` controls the behaviour on failure:
a safe search yields `undefined`, an unsafe one throws a parsing error. -/
def findNode (data : JsVal) (key target : String) (depth : Nat) (safe : Bool) :
    Except String JsVal :=
  match findNodeAux target depth (data.get key) with
  | some n => Except.ok n
  | none =>
      if safe then Except.ok JsVal.undef
      else Except.error "ParsingError: findNode could not find the target"

/-- Nesting depth of the recursive descent performed by the node search on a
given input, over-approximated by exploring every child branch. -/
def searchDepth (target : String) : Nat → JsVal → Nat
  | 0, _ => 0
  | Nat.succ f, node =>
      if keyFoundAt node target then 0
      else 1 + node.children.foldr (fun c acc => max (searchDepth target f c) acc) 0

/-- A wire request dispatched through the injected `Actions` client:
the dispatching method (`channel`, `browse` or `account`), the action or
browse id string, and the parameter payload. -/
inductive Request where
  | channelReq : String → JsVal → Request
  | browseReq : String → JsVal → Request
  | accountReq : String → JsVal → Request
deriving Repr

/-- The injected request dispatcher (the out-of-scope `Actions` collaborator),
abstracted as a function from a request to the `data` field of its response. -/
def Dispatcher : Type := Request → JsVal

/-- Embedding of `channel.editName`: dispatches one channel request of type
`channel/edit_name` with parameter object `\x7b new_name \x7d` and returns the
response unchanged. -/
def editName (d : Dispatcher) (new_name : String) : List Request × JsVal :=
  let req := Request.channelReq "channel/edit_name"
    (JsVal.objV [("new_name", JsVal.strV new_name)])
  ([req], d req)

/-- Embedding of `channel.editDescription`: dispatches one channel request of type
`channel/edit_description` with parameter object `\x7b new_description \x7d`
and returns the response unchanged. -/
def editDescription (d : Dispatcher) (new_description : String) :
    List Request × JsVal :=
  let req := Request.channelReq "channel/edit_description"
    (JsVal.objV [("new_description", JsVal.strV new_description)])
  ([req], d req)

/-- Modelled from the spec: the client-visible setting id constants of
`Constants.ACCOUNT_SETTINGS` (the file `utils/Constants` is not part of the
provided sources); the ids are symbolic opaque strings. -/
def ACCOUNT_SETTINGS_SUBSCRIPTIONS : String := "SUBSCRIPTIONS"

/-- Modelled from the spec: see `ACCOUNT_SETTINGS_SUBSCRIPTIONS`. -/
def ACCOUNT_SETTINGS_RECOMMENDED_VIDEOS : String := "RECOMMENDED_VIDEOS"

/-- Modelled from the spec: see `ACCOUNT_SETTINGS_SUBSCRIPTIONS`. -/
def ACCOUNT_SETTINGS_CHANNEL_ACTIVITY : String := "CHANNEL_ACTIVITY"

/-- Modelled from the spec: see `ACCOUNT_SETTINGS_SUBSCRIPTIONS`. -/
def ACCOUNT_SETTINGS_COMMENT_REPLIES : String := "COMMENT_REPLIES"

/-- Modelled from the spec: see `ACCOUNT_SETTINGS_SUBSCRIPTIONS`. -/
def ACCOUNT_SETTINGS_USER_MENTION : String := "USER_MENTION"

/-- Modelled from the spec: see `ACCOUNT_SETTINGS_SUBSCRIPTIONS`. -/
def ACCOUNT_SETTINGS_SHARED_CONTENT : String := "SHARED_CONTENT"

/-- Modelled from the spec: see `ACCOUNT_SETTINGS_SUBSCRIPTIONS`. -/
def ACCOUNT_SETTINGS_SUBSCRIPTIONS_PRIVACY : String := "SUBSCRIPTIONS_PRIVACY"

/-- Modelled from the spec: see `ACCOUNT_SETTINGS_SUBSCRIPTIONS`. -/
def ACCOUNT_SETTINGS_PLAYLISTS_PRIVACY : String := "PLAYLISTS_PRIVACY"

/-- The predicate of the `contents.find` call in `#setSetting`: the option
whose `settingsSwitchRenderer.enableServiceEndpoint.setSettingEndpoint
.settingItemIdForClient` equals the client-visible setting id. -/
def optionMatches (setting_id : String) (o : JsVal) : Bool :=
  match (((o.get "settingsSwitchRenderer").get "enableServiceEndpoint").get
      "setSettingEndpoint").get "settingItemIdForClient" with
  | JsVal.strV s => s == setting_id
  | _ => false

/-- The opaque `settingItemId` carried by a settings-switch option. -/
def settingItemIdOf (o : JsVal) : JsVal :=
  (((o.get "settingsSwitchRenderer").get "enableServiceEndpoint").get
      "setSettingEndpoint").get "settingItemId"

/-- Embedding of `String.prototype.trim`: strips leading and trailing whitespace. -/
def jsTrim (s : String) : String :=
  String.mk
    (((s.data.dropWhile Char.isWhitespace).reverse.dropWhile
        Char.isWhitespace).reverse)

/-- The target string handed to `findNode` by the switch on the trimmed
settings type in `#setSetting`; the default branch throws. -/
def switchTarget (type_ : String) : Except String String :=
  if jsTrim type_ == "SPaccount_notifications" then Except.ok "Your preferences"
  else if jsTrim type_ == "SPaccount_privacy" then
    Except.ok "settingsSwitchRenderer"
  else Except.error "TypeError: undefined is not a function"

/-- Embedding of the private method `setSetting setting_id type new_value`: validates `new_value` against the
keys of `\x7b ON: true, OFF: false \x7d` (a property-key check, so the value is
coerced to a string), fetches the settings page for `type`, locates the
settings-switch options with `findNode`, picks the option whose
`settingItemIdForClient` equals `setting_id`, and dispatches
`account/set_setting` with that option's `settingItemId` and the mapped
boolean (negated for `SPaccount_privacy`).  Returns the requests dispatched
in order, and the response or the thrown error. -/
def setSetting (d : Dispatcher) (setting_id type_ : String) (new_value : JsVal) :
    List Request × Except String JsVal :=
  if !(new_value.toStr == "ON" || new_value.toStr == "OFF") then
    ([], Except.error "InnertubeError: Invalid option")
  else
    let onVal : Bool := new_value.toStr == "ON"
    let breq := Request.browseReq type_ JsVal.undef
    let response := d breq
    match switchTarget type_ with
    | Except.error e => ([breq], Except.error e)
    | Except.ok target =>
      match findNode response "contents" target 13 false with
      | Except.error e => ([breq], Except.error e)
      | Except.ok node =>
        match node.get "options" with
        | JsVal.arrV opts =>
          match opts.find? (optionMatches setting_id) with
          | none =>
              ([breq], Except.error
                "TypeError: cannot read properties of undefined")
          | some opt =>
            let sent : Bool :=
              if type_ == "SPaccount_privacy" then !onVal else onVal
            let areq := Request.accountReq "account/set_setting"
              (JsVal.objV
                [("new_value", JsVal.boolV sent),
                 ("setting_item_id", settingItemIdOf opt)])
            ([breq, areq], Except.ok (d areq))
        | _ => ([breq], Except.error "TypeError: contents.find is not a function")

/-- Embedding of `settings.notifications.setSubscriptions`, passing its boolean option
through to `#setSetting`. -/
def setSubscriptions (d : Dispatcher) (option : Bool) :
    List Request × Except String JsVal :=
  setSetting d ACCOUNT_SETTINGS_SUBSCRIPTIONS "SPaccount_notifications"
    (JsVal.boolV option)

/-- Embedding of `settings.notifications.setRecommendedVideos`. -/
def setRecommendedVideos (d : Dispatcher) (option : Bool) :
    List Request × Except String JsVal :=
  setSetting d ACCOUNT_SETTINGS_RECOMMENDED_VIDEOS "SPaccount_notifications"
    (JsVal.boolV option)

/-- Embedding of `settings.notifications.setChannelActivity`. -/
def setChannelActivity (d : Dispatcher) (option : Bool) :
    List Request × Except String JsVal :=
  setSetting d ACCOUNT_SETTINGS_CHANNEL_ACTIVITY "SPaccount_notifications"
    (JsVal.boolV option)

/-- Embedding of `settings.notifications.setCommentReplies`. -/
def setCommentReplies (d : Dispatcher) (option : Bool) :
    List Request × Except String JsVal :=
  setSetting d ACCOUNT_SETTINGS_COMMENT_REPLIES "SPaccount_notifications"
    (JsVal.boolV option)

/-- Embedding of `settings.notifications.setMentions`. -/
def setMentions (d : Dispatcher) (option : Bool) :
    List Request × Except String JsVal :=
  setSetting d ACCOUNT_SETTINGS_USER_MENTION "SPaccount_notifications"
    (JsVal.boolV option)

/-- Embedding of `settings.notifications.setSharedContent`. -/
def setSharedContent (d : Dispatcher) (option : Bool) :
    List Request × Except String JsVal :=
  setSetting d ACCOUNT_SETTINGS_SHARED_CONTENT "SPaccount_notifications"
    (JsVal.boolV option)

/-- Embedding of `settings.privacy.setSubscriptionsPrivate`. -/
def setSubscriptionsPrivate (d : Dispatcher) (option : Bool) :
    List Request × Except String JsVal :=
  setSetting d ACCOUNT_SETTINGS_SUBSCRIPTIONS_PRIVACY "SPaccount_privacy"
    (JsVal.boolV option)

/-- Embedding of `settings.privacy.setSavedPlaylistsPrivate`. -/
def setSavedPlaylistsPrivate (d : Dispatcher) (option : Bool) :
    List Request × Except String JsVal :=
  setSetting d ACCOUNT_SETTINGS_PLAYLISTS_PRIVACY "SPaccount_privacy"
    (JsVal.boolV option)

/-- Embedding of `runs.map(run => run.text).join("")`: the concatenation of the run
texts of a `runs` array; a missing or non-array `runs` throws. -/
def joinRuns (v : JsVal) : Except String String :=
  match v.get "runs" with
  | JsVal.arrV xs =>
      Except.ok (String.join (xs.map (fun r => (r.get "text").toStr)))
  | _ => Except.error "TypeError: cannot read properties of undefined"

/-- The result object of `getInfo`: exactly the fields `name`, `email`,
`channel_id`, `subscriber_count` and `photo`. -/
structure AccountInfo where
  name : JsVal
  email : JsVal
  channel_id : JsVal
  subscriber_count : String
  photo : JsVal
deriving Repr

/-- Embedding of `getInfo`: dispatches `account/accounts_list`, locates the account item
section with `findNode`, and projects the profile fields from fixed paths. -/
def getInfo (d : Dispatcher) : List Request × Except String AccountInfo :=
  let req := Request.accountReq "account/accounts_list"
    (JsVal.objV [("client", JsVal.strV "ANDROID")])
  let response := d req
  match findNode response "contents" "accountItem" 8 false with
  | Except.error e => ([req], Except.error e)
  | Except.ok sec =>
    let accountItem := sec.get "accountItem"
    let profile :=
      ((accountItem.get "serviceEndpoint").get "signInEndpoint").get
        "directSigninUserProfile"
    match joinRuns (accountItem.get "accountByline") with
    | Except.error e => ([req], Except.error e)
    | Except.ok subscriber_count =>
      ([req], Except.ok
        { name := profile.get "accountName"
          email := profile.get "email"
          channel_id :=
            (((((((response.get "contents").idx 0).get
                "accountSectionListRenderer").get "footers").idx 0).get
                "accountChannelRenderer").get "navigationEndpoint").get
                "browseEndpoint" |>.get "browseId"
          subscriber_count := subscriber_count
          photo := (profile.get "accountPhoto").get "thumbnails" })

/-- A watch-time statistics record: `\x7b title, time \x7d`. -/
structure Stat where
  title : String
  time : String
deriving Repr, DecidableEq

/-- The body of the `rows.map` callback in `getTimeWatched`: a row with a
(truthy) `statRowRenderer` yields a record of the joined title and contents
run texts; any other row yields `undefined` (here `none`). -/
def statOfRow (row : JsVal) : Except String (Option Stat) :=
  let renderer := row.get "statRowRenderer"
  if renderer.truthy then
    match joinRuns (renderer.get "title"), joinRuns (renderer.get "contents") with
    | Except.ok title, Except.ok time => Except.ok (some { title, time })
    | Except.error e, _ => Except.error e
    | _, Except.error e => Except.error e
  else Except.ok none

/-- Left-to-right evaluation of the `rows.map` callback over the row list;
the first thrown error wins. -/
def mapRows : List JsVal → Except String (List (Option Stat))
  | [] => Except.ok []
  | r :: rest =>
      match statOfRow r, mapRows rest with
      | Except.ok o, Except.ok os => Except.ok (o :: os)
      | Except.error e, _ => Except.error e
      | _, Except.error e => Except.error e

/-- Embedding of `getTimeWatched`: dispatches a `SPtime_watched` browse, locates the stat
rows with `findNode`, maps each row to a record and filters out the rows
without a `statRowRenderer` (the `filter(stat => stat)` step). -/
def getTimeWatched (d : Dispatcher) : List Request × Except String (List Stat) :=
  let req := Request.browseReq "SPtime_watched"
    (JsVal.objV [("client", JsVal.strV "ANDROID")])
  let response := d req
  match findNode response "contents" "statRowRenderer" 11 false with
  | Except.error e => ([req], Except.error e)
  | Except.ok rows =>
    match rows with
    | JsVal.arrV rs =>
        ([req], (mapRows rs).map (fun l => l.filterMap id))
    | _ => ([req], Except.error "TypeError: rows.map is not a function")

/-- Modelled from the spec: `Proto.encodeChannelAnalyticsParams` (the `proto`
module is an excluded collaborator, not part of the provided sources); the
protobuf parameter encoding of a channel id is modelled as an injective
opaque string encoding. -/
def encodeChannelAnalyticsParams (channel_id : JsVal) : JsVal :=
  JsVal.strV ("channel_analytics_params:" ++ channel_id.toStr)

/-- Modelled from the spec: the `Analytics` response wrapper (an excluded
collaborator, not part of the provided sources); it is constructed from the
`data` field of the analytics browse response. -/
structure Analytics where
  data : JsVal
deriving Repr

/-- Embedding of `getAnalytics`: obtains the channel id via `getInfo`, encodes it with the
Proto channel-analytics parameter encoding, dispatches an
`FEanalytics_screen` browse and wraps its response in `Analytics`. -/
def getAnalytics (d : Dispatcher) : List Request × Except String Analytics :=
  match getInfo d with
  | (reqs, Except.error e) => (reqs, Except.error e)
  | (reqs, Except.ok info) =>
    let params := encodeChannelAnalyticsParams info.channel_id
    let breq := Request.browseReq "FEanalytics_screen"
      (JsVal.objV [("params", params), ("client", JsVal.strV "ANDROID")])
    (reqs ++ [breq], Except.ok { data := d breq })

/-- Embedding of `channel.getBasicAnalytics: () => this.getAnalytics()`. -/
def getBasicAnalytics (d : Dispatcher) : List Request × Except String Analytics :=
  getAnalytics d

/-- The instance state of `AccountManager`: its only field is the `#actions`
dispatcher reference injected at construction. -/
structure AccountManager where
  actions : Dispatcher

/-- One public operation of `AccountManager`. -/
inductive Op where
  | opEditName : String → Op
  | opEditDescription : String → Op
  | opGetBasicAnalytics : Op
  | opSetSubscriptions : Bool → Op
  | opSetRecommendedVideos : Bool → Op
  | opSetChannelActivity : Bool → Op
  | opSetCommentReplies : Bool → Op
  | opSetMentions : Bool → Op
  | opSetSharedContent : Bool → Op
  | opSetSubscriptionsPrivate : Bool → Op
  | opSetSavedPlaylistsPrivate : Bool → Op
  | opGetInfo : Op
  | opGetTimeWatched : Op
  | opGetAnalytics : Op

/-- The visible output of one operation. -/
inductive OpOutput where
  | apiResp : JsVal → OpOutput
  | apiResult : Except String JsVal → OpOutput
  | infoResult : Except String AccountInfo → OpOutput
  | statsResult : Except String (List Stat) → OpOutput
  | analyticsResult : Except String Analytics → OpOutput

/-- Run one operation on an `AccountManager` instance: the method reads the
`#actions` field and never writes any field, so the post-state is passed
through explicitly. -/
def runOp (m : AccountManager) : Op → AccountManager × List Request × OpOutput
  | Op.opEditName s =>
      let r := editName m.actions s; (m, r.1, OpOutput.apiResp r.2)
  | Op.opEditDescription s =>
      let r := editDescription m.actions s; (m, r.1, OpOutput.apiResp r.2)
  | Op.opGetBasicAnalytics =>
      let r := getBasicAnalytics m.actions; (m, r.1, OpOutput.analyticsResult r.2)
  | Op.opSetSubscriptions b =>
      let r := setSubscriptions m.actions b; (m, r.1, OpOutput.apiResult r.2)
  | Op.opSetRecommendedVideos b =>
      let r := setRecommendedVideos m.actions b; (m, r.1, OpOutput.apiResult r.2)
  | Op.opSetChannelActivity b =>
      let r := setChannelActivity m.actions b; (m, r.1, OpOutput.apiResult r.2)
  | Op.opSetCommentReplies b =>
      let r := setCommentReplies m.actions b; (m, r.1, OpOutput.apiResult r.2)
  | Op.opSetMentions b =>
      let r := setMentions m.actions b; (m, r.1, OpOutput.apiResult r.2)
  | Op.opSetSharedContent b =>
      let r := setSharedContent m.actions b; (m, r.1, OpOutput.apiResult r.2)
  | Op.opSetSubscriptionsPrivate b =>
      let r := setSubscriptionsPrivate m.actions b; (m, r.1, OpOutput.apiResult r.2)
  | Op.opSetSavedPlaylistsPrivate b =>
      let r := setSavedPlaylistsPrivate m.actions b; (m, r.1, OpOutput.apiResult r.2)
  | Op.opGetInfo =>
      let r := getInfo m.actions; (m, r.1, OpOutput.infoResult r.2)
  | Op.opGetTimeWatched =>
      let r := getTimeWatched m.actions; (m, r.1, OpOutput.statsResult r.2)
  | Op.opGetAnalytics =>
      let r := getAnalytics m.actions; (m, r.1, OpOutput.analyticsResult r.2)

/-- Run a sequence of operations, threading the instance state. -/
def runSeq (m : AccountManager) : List Op → AccountManager
  | [] => m
  | op :: rest => runSeq (runOp m op).1 rest

/-- Specification-side reading of a text object: the concatenation of the
texts of its `runs`; empty when there is no runs array. -/
def runsText (v : JsVal) : String :=
  match v.get "runs" with
  | JsVal.arrV xs => String.join (xs.map (fun r => (r.get "text").toStr))
  | _ => ""

/-- A sample settings-switch option for the notifications page. -/
def sampleNotifOption : JsVal :=
  JsVal.objV [("settingsSwitchRenderer", JsVal.objV
    [("enableServiceEndpoint", JsVal.objV
        [("setSettingEndpoint", JsVal.objV
            [("settingItemIdForClient", JsVal.strV "SUBSCRIPTIONS"),
             ("settingItemId", JsVal.strV "opaque-item-id-1")])])])]

/-- A sample `SPaccount_notifications` settings page payload. -/
def sampleNotifPage : JsVal :=
  JsVal.objV [("contents", JsVal.objV
    [("Your preferences", JsVal.nullV),
     ("options", JsVal.arrV [sampleNotifOption])])]

/-- A sample settings-switch option for the privacy page. -/
def samplePrivacyOption : JsVal :=
  JsVal.objV [("settingsSwitchRenderer", JsVal.objV
    [("enableServiceEndpoint", JsVal.objV
        [("setSettingEndpoint", JsVal.objV
            [("settingItemIdForClient", JsVal.strV "SUBSCRIPTIONS_PRIVACY"),
             ("settingItemId", JsVal.strV "opaque-item-id-2")])])])]

/-- A sample `SPaccount_privacy` settings page payload. -/
def samplePrivacyPage : JsVal :=
  JsVal.objV [("contents", JsVal.objV
    [("settingsSwitchRenderer", JsVal.nullV),
     ("options", JsVal.arrV [samplePrivacyOption])])]

/-- A sample account item section, as located by the node search. -/
def sampleAccountSection : JsVal :=
  JsVal.objV [("accountItem", JsVal.objV
    [("serviceEndpoint", JsVal.objV
        [("signInEndpoint", JsVal.objV
            [("directSigninUserProfile", JsVal.objV
                [("accountName", JsVal.strV "Alice"),
                 ("email", JsVal.strV "alice@example.com"),
                 ("accountPhoto", JsVal.objV
                    [("thumbnails", JsVal.arrV
                        [JsVal.objV [("url", JsVal.strV "photo-url")]])])])])]),
     ("accountByline", JsVal.objV
        [("runs", JsVal.arrV
            [JsVal.objV [("text", JsVal.strV "12")],
             JsVal.objV [("text", JsVal.strV " subscribers")]])])])]

/-- A sample `account/accounts_list` response payload. -/
def sampleAccountsData : JsVal :=
  JsVal.objV [("contents", JsVal.arrV
    [JsVal.objV [("accountSectionListRenderer", JsVal.objV
        [("inner", sampleAccountSection),
         ("footers", JsVal.arrV
            [JsVal.objV [("accountChannelRenderer", JsVal.objV
                [("navigationEndpoint", JsVal.objV
                    [("browseEndpoint", JsVal.objV
                        [("browseId", JsVal.strV "UC123")])])])]])])]])]

/-- A sample stat row carrying a `statRowRenderer`. -/
def sampleStatRow : JsVal :=
  JsVal.objV [("statRowRenderer", JsVal.objV
    [("title", JsVal.objV
        [("runs", JsVal.arrV [JsVal.objV [("text", JsVal.strV "Watch time")]])]),
     ("contents", JsVal.objV
        [("runs", JsVal.arrV [JsVal.objV [("text", JsVal.strV "2 hours")]])])])]

/-- A sample row without a `statRowRenderer`. -/
def sampleOtherRow : JsVal := JsVal.objV [("other", JsVal.nullV)]

/-- A sample `SPtime_watched` browse response payload. -/
def sampleTimeWatchedData : JsVal :=
  JsVal.objV [("contents", JsVal.arrV [sampleStatRow, sampleOtherRow])]

theorem foldr_findNodeAux_sound (target : String) (f : Nat)
    (ih : ∀ c n, findNodeAux target f c = some n → keyFoundAt n target = true) :
    ∀ (l : List JsVal) (n : JsVal),
      l.foldr (fun c acc => (findNodeAux target f c).elim acc some) none = some n →
      keyFoundAt n target = true := by
  intro l
  induction l with
  | nil => intro n h; simp at h
  | cons c rest ihl =>
    intro n h
    simp only [List.foldr] at h
    cases hc : findNodeAux target f c with
    | none => rw [hc] at h; simp only [Option.elim] at h; exact ihl n h
    | some m =>
      rw [hc] at h
      simp only [Option.elim] at h
      cases h
      exact ih c n hc

theorem findNodeAux_sound (target : String) :
    ∀ (fuel : Nat) (node n : JsVal),
      findNodeAux target fuel node = some n → keyFoundAt n target = true := by
  intro fuel
  induction fuel with
  | zero => intro node n h; simp [findNodeAux] at h
  | succ f ih =>
    intro node n h
    simp only [findNodeAux] at h
    by_cases hk : keyFoundAt node target = true
    · rw [if_pos hk] at h; cases h; exact hk
    · rw [if_neg hk] at h
      exact foldr_findNodeAux_sound target f ih node.children n h

/-- C1: for every response payload tree, target key name and depth limit,
`findNode` recurses through the tree by key name and returns the subtree at
which the target key is found (whenever the bounded search locates one, the
returned node carries the target key); when the search fails, the failure
flag decides between a quiet `undefined` and a thrown parsing error; a
search with an exhausted depth limit finds nothing. -/
theorem findNode_search_spec (data : JsVal) (key target : String) (depth : Nat)
    (safe : Bool) :
    (∀ n, findNodeAux target depth (data.get key) = some n →
        findNode data key target depth safe = Except.ok n ∧
        keyFoundAt n target = true)
    ∧ (findNodeAux target depth (data.get key) = none →
        findNode data key target depth safe =
          if safe then Except.ok JsVal.undef
          else Except.error "ParsingError: findNode could not find the target")
    ∧ findNodeAux target 0 (data.get key) = none := by
  refine ⟨?_, ?_, ?_⟩
  · intro n h
    exact ⟨by simp [findNode, h], findNodeAux_sound target depth _ n h⟩
  · intro h
    simp [findNode, h]
  · simp [findNodeAux]

/-- Witness for C1 at a concrete payload: the search for `statRowRenderer`
returns the row array, which carries the key in one of its elements. -/
theorem findNode_search_spec_witness :
    findNode sampleTimeWatchedData "contents" "statRowRenderer" 11 false =
      Except.ok (JsVal.arrV [sampleStatRow, sampleOtherRow]) ∧
    keyFoundAt (JsVal.arrV [sampleStatRow, sampleOtherRow]) "statRowRenderer" =
      true :=
  (findNode_search_spec sampleTimeWatchedData "contents" "statRowRenderer" 11
    false).1 (JsVal.arrV [sampleStatRow, sampleOtherRow]) rfl

theorem foldr_searchDepth_le (target : String) (f : Nat)
    (ih : ∀ node, searchDepth target f node ≤ f) :
    ∀ l : List JsVal,
      l.foldr (fun c acc => max (searchDepth target f c) acc) 0 ≤ f := by
  intro l
  induction l with
  | nil => simp
  | cons c rest ihl =>
    simp only [List.foldr]
    exact max_le (ih c) ihl

/-- C4: the recursive descent of the node search is bounded by the depth
limit: on every input tree the nesting depth of the recursion is at most
`depth`, and a search whose budget is exhausted stops at once; the search is
a total function, so it terminates on every input tree. -/
theorem findNode_depth_bounded (data : JsVal) (key target : String)
    (depth : Nat) :
    searchDepth target depth (data.get key) ≤ depth ∧
    findNodeAux target 0 (data.get key) = none := by
  constructor
  · induction depth generalizing data key with
    | zero => simp [searchDepth]
    | succ f ih =>
      have ihall : ∀ node, searchDepth target f node ≤ f := by
        intro node
        have := ih (JsVal.objV [("k", node)]) "k"
        simpa [JsVal.get] using this
      simp only [searchDepth]
      by_cases hk : keyFoundAt (data.get key) target = true
      · rw [if_pos hk]; exact Nat.zero_le _
      · rw [if_neg hk]
        have := foldr_searchDepth_le target f ihall (data.get key).children
        omega
  · simp [findNodeAux]

/-- C5: each channel edit method dispatches exactly one channel request,
with the stated type string and one-field parameter object, and returns the
dispatcher's response unchanged. -/
theorem channel_edit_requests (d : Dispatcher) (new_name new_description : String) :
    editName d new_name =
      ([Request.channelReq "channel/edit_name"
          (JsVal.objV [("new_name", JsVal.strV new_name)])],
        d (Request.channelReq "channel/edit_name"
          (JsVal.objV [("new_name", JsVal.strV new_name)]))) ∧
    editDescription d new_description =
      ([Request.channelReq "channel/edit_description"
          (JsVal.objV [("new_description", JsVal.strV new_description)])],
        d (Request.channelReq "channel/edit_description"
          (JsVal.objV [("new_description", JsVal.strV new_description)]))) :=
  ⟨rfl, rfl⟩

/-- C9: `channel.getBasicAnalytics` is extensionally equal to `getAnalytics`:
on every dispatcher it dispatches the same requests (those of `getInfo`
followed, on success, by the `FEanalytics_screen` browse carrying the
Proto-encoded channel id) and returns the same `Analytics` result. -/
theorem getBasicAnalytics_eq_getAnalytics (d : Dispatcher) :
    getBasicAnalytics d = getAnalytics d ∧
    (getAnalytics d).1 =
      (getInfo d).1 ++
        (match (getInfo d).2 with
          | Except.ok info =>
              [Request.browseReq "FEanalytics_screen"
                (JsVal.objV
                  [("params", encodeChannelAnalyticsParams info.channel_id),
                   ("client", JsVal.strV "ANDROID")])]
          | Except.error _ => []) := by
  refine ⟨rfl, ?_⟩
  unfold getAnalytics
  cases h : getInfo d with
  | mk reqs res =>
    cases res with
    | ok info => simp
    | error e => simp

/-- C10: `AccountManager` holds no mutable state beyond the injected
dispatcher reference: every operation leaves the instance (in particular its
`actions` field) unchanged, and any sequence of operations still observes
the dispatcher injected at construction. -/
theorem accountManager_state_immutable (m : AccountManager) :
    (∀ op : Op, (runOp m op).1 = m ∧ (runOp m op).1.actions = m.actions) ∧
    (∀ ops : List Op, runSeq m ops = m) := by
  have hop : ∀ op : Op, (runOp m op).1 = m := by
    intro op; cases op <;> rfl
  refine ⟨fun op => ⟨hop op, by rw [hop op]⟩, ?_⟩
  intro ops
  induction ops with
  | nil => rfl
  | cons op rest ih => simp only [runSeq, hop]; exact ih

theorem switchTarget_error_msg (ty e : String)
    (h : switchTarget ty = Except.error e) :
    e = "TypeError: undefined is not a function" := by
  unfold switchTarget at h
  split at h
  · cases h
  · split at h
    · cases h
    · cases h; rfl

theorem findNode_unsafe_error_msg (data : JsVal) (key target : String)
    (depth : Nat) (e : String)
    (h : findNode data key target depth false = Except.error e) :
    e = "ParsingError: findNode could not find the target" := by
  unfold findNode at h
  split at h
  · cases h
  · simp at h; exact h.symm

theorem setSetting_valid_not_invalid (d : Dispatcher) (sid ty : String)
    (nv : JsVal) (hacc : nv.toStr = "ON" ∨ nv.toStr = "OFF") :
    (setSetting d sid ty nv).2 ≠ Except.error "InnertubeError: Invalid option" := by
  have hcond : (!(nv.toStr == "ON" || nv.toStr == "OFF")) = false := by
    rcases hacc with h | h <;> simp [h]
  intro h
  simp only [setSetting, hcond, Bool.false_eq_true, if_false] at h
  split at h
  next e heq =>
    simp only at h
    cases h
    exact absurd (switchTarget_error_msg ty _ heq) (by decide)
  next target htgt =>
    split at h
    next e heq =>
      simp only at h
      cases h
      exact absurd (findNode_unsafe_error_msg _ "contents" _ 13 _ heq) (by decide)
    next node hfind =>
      split at h
      next opts hopts =>
        split at h
        · simp at h
        · simp at h
      next hopts => simp at h

/-- C3: `setSetting` rejects with the `InnertubeError` message
"Invalid option" exactly when its `new_value` argument is neither the string
"ON" nor the string "OFF"; in particular every call made through the
boolean-typed public setters, which pass a boolean option, rejects with this
error while dispatching no request at all. -/
theorem setSetting_invalid_option_iff (d : Dispatcher) (sid ty s : String) :
    ((setSetting d sid ty (JsVal.strV s)).2 =
        Except.error "InnertubeError: Invalid option" ↔ ¬(s = "ON" ∨ s = "OFF"))
    ∧ (∀ b : Bool,
        setSubscriptions d b =
          ([], Except.error "InnertubeError: Invalid option") ∧
        setRecommendedVideos d b =
          ([], Except.error "InnertubeError: Invalid option") ∧
        setChannelActivity d b =
          ([], Except.error "InnertubeError: Invalid option") ∧
        setCommentReplies d b =
          ([], Except.error "InnertubeError: Invalid option") ∧
        setMentions d b =
          ([], Except.error "InnertubeError: Invalid option") ∧
        setSharedContent d b =
          ([], Except.error "InnertubeError: Invalid option") ∧
        setSubscriptionsPrivate d b =
          ([], Except.error "InnertubeError: Invalid option") ∧
        setSavedPlaylistsPrivate d b =
          ([], Except.error "InnertubeError: Invalid option")) := by
  constructor
  · constructor
    · intro h hor
      exact setSetting_valid_not_invalid d sid ty (JsVal.strV s)
        (by rcases hor with h1 | h1 <;> [exact Or.inl (by simp [JsVal.toStr, h1]);
          exact Or.inr (by simp [JsVal.toStr, h1])]) h
    · intro hor
      have h1 : s ≠ "ON" := fun hs => hor (Or.inl hs)
      have h2 : s ≠ "OFF" := fun hs => hor (Or.inr hs)
      simp [setSetting, JsVal.toStr, h1, h2]
  · intro b
    cases b <;>
      exact ⟨rfl, rfl, rfl, rfl, rfl, rfl, rfl, rfl⟩

/-- Witness for C3 at concrete inputs: a non-ON/OFF string is rejected. -/
theorem setSetting_invalid_option_iff_witness :
    (setSetting (fun _ => JsVal.undef) "SUBSCRIPTIONS" "SPaccount_notifications"
        (JsVal.strV "MAYBE")).2 =
      Except.error "InnertubeError: Invalid option" :=
  (setSetting_invalid_option_iff (fun _ => JsVal.undef) "SUBSCRIPTIONS"
    "SPaccount_notifications" "MAYBE").1.mpr (by decide)

theorem setSetting_run (d : Dispatcher) (sid ty : String) (nv : JsVal)
    (tgt : String) (node : JsVal) (opts : List JsVal) (opt : JsVal)
    (hacc : nv.toStr = "ON" ∨ nv.toStr = "OFF")
    (htgt : switchTarget ty = Except.ok tgt)
    (hfind : findNode (d (Request.browseReq ty JsVal.undef)) "contents" tgt 13
        false = Except.ok node)
    (hopts : node.get "options" = JsVal.arrV opts)
    (hfound : opts.find? (optionMatches sid) = some opt) :
    setSetting d sid ty nv =
      ([Request.browseReq ty JsVal.undef,
        Request.accountReq "account/set_setting" (JsVal.objV
          [("new_value", JsVal.boolV
              (if ty == "SPaccount_privacy" then !(nv.toStr == "ON")
               else nv.toStr == "ON")),
           ("setting_item_id", settingItemIdOf opt)])],
       Except.ok (d (Request.accountReq "account/set_setting" (JsVal.objV
          [("new_value", JsVal.boolV
              (if ty == "SPaccount_privacy" then !(nv.toStr == "ON")
               else nv.toStr == "ON")),
           ("setting_item_id", settingItemIdOf opt)])))) := by
  have hcond : (!(nv.toStr == "ON" || nv.toStr == "OFF")) = false := by
    rcases hacc with h | h <;> simp [h]
  simp only [setSetting, hcond, Bool.false_eq_true, if_false, htgt, hfind,
    hopts, hfound]

/-- Counterexample to C2 as stated: a call through a public setter (here
`settings.notifications.setSubscriptions` with option `true`) never maps its
setting id and dispatches no `account/set_setting` request at all, because
the boolean option is rejected first. -/
theorem setter_performs_no_mapping :
    setSubscriptions (fun _ => JsVal.undef) true =
      ([], Except.error "InnertubeError: Invalid option") ∧
    setSubscriptionsPrivate (fun _ => JsVal.undef) true =
      ([], Except.error "InnertubeError: Invalid option") :=
  ⟨rfl, rfl⟩

/-- C2 (amended): for every `setSetting` mutation whose `new_value` is
accepted and whose fetched settings page yields a matching settings-switch
option, the client-visible setting id equals the located option's
`settingItemIdForClient`, and that option's opaque `settingItemId` is the
`setting_item_id` sent in the subsequent `account/set_setting` request. -/
theorem setSetting_maps_setting_item_id (d : Dispatcher) (sid ty : String)
    (nv : JsVal) (tgt : String) (node : JsVal) (opts : List JsVal) (opt : JsVal)
    (hacc : nv.toStr = "ON" ∨ nv.toStr = "OFF")
    (htgt : switchTarget ty = Except.ok tgt)
    (hfind : findNode (d (Request.browseReq ty JsVal.undef)) "contents" tgt 13
        false = Except.ok node)
    (hopts : node.get "options" = JsVal.arrV opts)
    (hfound : opts.find? (optionMatches sid) = some opt) :
    ((((opt.get "settingsSwitchRenderer").get "enableServiceEndpoint").get
        "setSettingEndpoint").get "settingItemIdForClient" = JsVal.strV sid)
    ∧ ∃ sent : Bool,
        setSetting d sid ty nv =
          ([Request.browseReq ty JsVal.undef,
            Request.accountReq "account/set_setting" (JsVal.objV
              [("new_value", JsVal.boolV sent),
               ("setting_item_id", settingItemIdOf opt)])],
           Except.ok (d (Request.accountReq "account/set_setting" (JsVal.objV
              [("new_value", JsVal.boolV sent),
               ("setting_item_id", settingItemIdOf opt)])))) := by
  constructor
  · have hp := List.find?_some hfound
    unfold optionMatches at hp
    split at hp
    next s heq =>
      rw [heq]
      congr 1
      exact eq_of_beq hp
    next => cases hp
  · exact ⟨_, setSetting_run d sid ty nv tgt node opts opt hacc htgt hfind
      hopts hfound⟩

/-- Witness for the amended C2 at a concrete notifications page: the located
option carries the client id SUBSCRIPTIONS and its opaque item id is sent. -/
theorem setSetting_maps_setting_item_id_witness :
    ((((sampleNotifOption.get "settingsSwitchRenderer").get
        "enableServiceEndpoint").get "setSettingEndpoint").get
        "settingItemIdForClient" = JsVal.strV "SUBSCRIPTIONS")
    ∧ ∃ sent : Bool,
        setSetting (fun _ => sampleNotifPage) "SUBSCRIPTIONS"
            "SPaccount_notifications" (JsVal.strV "ON") =
          ([Request.browseReq "SPaccount_notifications" JsVal.undef,
            Request.accountReq "account/set_setting" (JsVal.objV
              [("new_value", JsVal.boolV sent),
               ("setting_item_id", settingItemIdOf sampleNotifOption)])],
           Except.ok ((fun _ => sampleNotifPage)
              (Request.accountReq "account/set_setting" (JsVal.objV
                [("new_value", JsVal.boolV sent),
                 ("setting_item_id", settingItemIdOf sampleNotifOption)])))) :=
  setSetting_maps_setting_item_id (fun _ => sampleNotifPage) "SUBSCRIPTIONS"
    "SPaccount_notifications" (JsVal.strV "ON") "Your preferences"
    (sampleNotifPage.get "contents") [sampleNotifOption] sampleNotifOption
    (Or.inl rfl) rfl rfl rfl rfl

/-- C8: for every accepted `new_value`, the boolean sent as `new_value` in
the `account/set_setting` request is the negation of the ON/OFF mapping when
the settings type is the exact string `SPaccount_privacy`, and the ON/OFF
mapping itself otherwise (in particular for `SPaccount_notifications`). -/
theorem setSetting_value_mapping (d : Dispatcher) (sid ty : String)
    (nv : JsVal) (tgt : String) (node : JsVal) (opts : List JsVal) (opt : JsVal)
    (hacc : nv.toStr = "ON" ∨ nv.toStr = "OFF")
    (htgt : switchTarget ty = Except.ok tgt)
    (hfind : findNode (d (Request.browseReq ty JsVal.undef)) "contents" tgt 13
        false = Except.ok node)
    (hopts : node.get "options" = JsVal.arrV opts)
    (hfound : opts.find? (optionMatches sid) = some opt) :
    (setSetting d sid ty nv).1 =
      [Request.browseReq ty JsVal.undef,
       Request.accountReq "account/set_setting" (JsVal.objV
        [("new_value", JsVal.boolV
            (if ty == "SPaccount_privacy" then !(nv.toStr == "ON")
             else nv.toStr == "ON")),
         ("setting_item_id", settingItemIdOf opt)])] := by
  rw [setSetting_run d sid ty nv tgt node opts opt hacc htgt hfind hopts hfound]

/-- Witness for C8 at a concrete privacy page with `new_value` ON: the
boolean sent is `false`, the negation of the ON mapping. -/
theorem setSetting_value_mapping_witness :
    (setSetting (fun _ => samplePrivacyPage) "SUBSCRIPTIONS_PRIVACY"
        "SPaccount_privacy" (JsVal.strV "ON")).1 =
      [Request.browseReq "SPaccount_privacy" JsVal.undef,
       Request.accountReq "account/set_setting" (JsVal.objV
        [("new_value", JsVal.boolV false),
         ("setting_item_id", settingItemIdOf samplePrivacyOption)])] :=
  setSetting_value_mapping (fun _ => samplePrivacyPage) "SUBSCRIPTIONS_PRIVACY"
    "SPaccount_privacy" (JsVal.strV "ON") "settingsSwitchRenderer"
    (samplePrivacyPage.get "contents") [samplePrivacyOption] samplePrivacyOption
    (Or.inl rfl) rfl rfl rfl rfl

/-- C6: `getInfo` dispatches `account/accounts_list` and returns an object
with exactly the fields `name`, `email`, `channel_id`, `subscriber_count`
and `photo`, each projected from its fixed path: name, email and photo from
the `directSigninUserProfile` under the `accountItem` of the section found
by node search, `subscriber_count` as the concatenation of the
`accountByline` run texts, and `channel_id` from the first content section's
footer `browseId`. -/
theorem getInfo_field_projection (d : Dispatcher) (sec : JsVal)
    (rs : List JsVal)
    (hfind : findNode (d (Request.accountReq "account/accounts_list"
        (JsVal.objV [("client", JsVal.strV "ANDROID")]))) "contents"
        "accountItem" 8 false = Except.ok sec)
    (hruns : ((sec.get "accountItem").get "accountByline").get "runs" =
        JsVal.arrV rs) :
    getInfo d =
      ([Request.accountReq "account/accounts_list"
          (JsVal.objV [("client", JsVal.strV "ANDROID")])],
       Except.ok
        { name := ((((sec.get "accountItem").get "serviceEndpoint").get
              "signInEndpoint").get "directSigninUserProfile").get
              "accountName",
          email := ((((sec.get "accountItem").get "serviceEndpoint").get
              "signInEndpoint").get "directSigninUserProfile").get "email",
          channel_id :=
            ((d (Request.accountReq "account/accounts_list"
                (JsVal.objV [("client", JsVal.strV "ANDROID")]))).get
                "contents" |>.idx 0 |>.get "accountSectionListRenderer" |>.get
                "footers" |>.idx 0 |>.get "accountChannelRenderer" |>.get
                "navigationEndpoint" |>.get "browseEndpoint" |>.get "browseId"),
          subscriber_count :=
            String.join (rs.map (fun r => (r.get "text").toStr)),
          photo := (((((sec.get "accountItem").get "serviceEndpoint").get
              "signInEndpoint").get "directSigninUserProfile").get
              "accountPhoto").get "thumbnails" }) := by
  simp only [getInfo, hfind, joinRuns, hruns]

/-- Witness for C6 at a concrete accounts-list payload. -/
theorem getInfo_field_projection_witness :
    getInfo (fun _ => sampleAccountsData) =
      ([Request.accountReq "account/accounts_list"
          (JsVal.objV [("client", JsVal.strV "ANDROID")])],
       Except.ok
        { name := JsVal.strV "Alice",
          email := JsVal.strV "alice@example.com",
          channel_id := JsVal.strV "UC123",
          subscriber_count := "12 subscribers",
          photo := JsVal.arrV [JsVal.objV [("url", JsVal.strV "photo-url")]] }) := by
  have h := getInfo_field_projection (fun _ => sampleAccountsData)
    sampleAccountSection
    [JsVal.objV [("text", JsVal.strV "12")],
     JsVal.objV [("text", JsVal.strV " subscribers")]] rfl rfl
  exact h.trans (by rfl)

theorem mapRows_wellShaped (rows : List JsVal)
    (hshape : ∀ r ∈ rows, (r.get "statRowRenderer").truthy = true →
        (∃ ts, ((r.get "statRowRenderer").get "title").get "runs" =
            JsVal.arrV ts) ∧
        (∃ cs, ((r.get "statRowRenderer").get "contents").get "runs" =
            JsVal.arrV cs)) :
    (mapRows rows).map (fun l => l.filterMap id) =
      Except.ok
        ((rows.filter (fun r => (r.get "statRowRenderer").truthy)).map
          (fun r =>
            { title := runsText ((r.get "statRowRenderer").get "title"),
              time := runsText ((r.get "statRowRenderer").get "contents") })) := by
  induction rows with
  | nil => simp [mapRows, Except.map]
  | cons r rest ih =>
    have ihr := ih (fun x hx => hshape x (List.mem_cons_of_mem _ hx))
    cases ht : (r.get "statRowRenderer").truthy with
    | true =>
      obtain ⟨⟨ts, hts⟩, ⟨cs, hcs⟩⟩ := hshape r (List.mem_cons_self _ _) ht
      have h1 : statOfRow r = Except.ok (some
          { title := runsText ((r.get "statRowRenderer").get "title"),
            time := runsText ((r.get "statRowRenderer").get "contents") }) := by
        simp [statOfRow, ht, joinRuns, hts, hcs, runsText]
      cases hm : mapRows rest with
      | error e => rw [hm] at ihr; simp [Except.map] at ihr
      | ok os =>
        rw [hm] at ihr
        simp only [Except.map, Except.ok.injEq] at ihr
        simp [mapRows, h1, hm, Except.map, List.filter_cons, ht, ihr]
    | false =>
      have h0 : statOfRow r = Except.ok none := by
        simp [statOfRow, ht]
      cases hm : mapRows rest with
      | error e => rw [hm] at ihr; simp [Except.map] at ihr
      | ok os =>
        rw [hm] at ihr
        simp only [Except.map, Except.ok.injEq] at ihr
        simp [mapRows, h0, hm, Except.map, List.filter_cons, ht, ihr]

/-- C7: `getTimeWatched` dispatches the `SPtime_watched` browse and returns
one record per row carrying a (truthy) `statRowRenderer`, in row order, with
rows lacking one dropped; each record's title and time are the
concatenations of the run texts of the renderer's `title` and `contents`. -/
theorem getTimeWatched_stats (d : Dispatcher) (rows : List JsVal)
    (hfind : findNode (d (Request.browseReq "SPtime_watched"
        (JsVal.objV [("client", JsVal.strV "ANDROID")]))) "contents"
        "statRowRenderer" 11 false = Except.ok (JsVal.arrV rows))
    (hshape : ∀ r ∈ rows, (r.get "statRowRenderer").truthy = true →
        (∃ ts, ((r.get "statRowRenderer").get "title").get "runs" =
            JsVal.arrV ts) ∧
        (∃ cs, ((r.get "statRowRenderer").get "contents").get "runs" =
            JsVal.arrV cs)) :
    getTimeWatched d =
      ([Request.browseReq "SPtime_watched"
          (JsVal.objV [("client", JsVal.strV "ANDROID")])],
       Except.ok
        ((rows.filter (fun r => (r.get "statRowRenderer").truthy)).map
          (fun r =>
            { title := runsText ((r.get "statRowRenderer").get "title"),
              time := runsText ((r.get "statRowRenderer").get "contents") }))) := by
  simp only [getTimeWatched, hfind]
  rw [mapRows_wellShaped rows hshape]

/-- Witness for C7 at a concrete payload: the row with a renderer yields a
record, the row without one is dropped. -/
theorem getTimeWatched_stats_witness :
    getTimeWatched (fun _ => sampleTimeWatchedData) =
      ([Request.browseReq "SPtime_watched"
          (JsVal.objV [("client", JsVal.strV "ANDROID")])],
       Except.ok [{ title := "Watch time", time := "2 hours" }]) := by
  have h := getTimeWatched_stats (fun _ => sampleTimeWatchedData)
    [sampleStatRow, sampleOtherRow] rfl ?_
  · exact h.trans (by rfl)
  · intro r hr ht
    rcases List.mem_cons.mp hr with h1 | h1
    · subst h1
      exact ⟨⟨_, rfl⟩, ⟨_, rfl⟩⟩
    · rcases List.mem_cons.mp h1 with h2 | h2
      · subst h2
        cases ht
      · cases h2
